import Mathlib

/-!
# Verification of the GitHub Backend proxy (`src/server.js`)

A shallow embedding of the Express application in `src/server.js`:
the authentication middleware (`authenticate`), the per-route handlers,
and the outbound-call contract against the Octokit client.

Modelling conventions:
* JSON values are the inductive `JVal`; JavaScript `undefined` is
  modelled as `Option.none` wherever a value may be absent.
* JavaScript truthiness (`if (x)`, `a || b`) is modelled explicitly
  (`strTruthy`, `jsOrStr`, `JVal.truthy`, `intOr`, `natOr`).
* The Octokit client is an oracle `Upstream : Call → Except UpstreamErr
  UpstreamOk`; a handler's observable behaviour is an `Outcome`: the HTTP
  response it writes plus the list of outbound calls it performed.
* The response timestamp `new Date().toISOString()` is passed in as an
  explicit parameter `now : String` (all envelopes built while serving one
  request share it).
-/

namespace Backend

/-- JSON-like values as seen by the JavaScript handlers.  `nan` models the
JavaScript number `NaN` (the result of a failed `parseInt`). -/
inductive JVal where
  | null
  | nan
  | bool (b : Bool)
  | num (n : Int)
  | str (s : String)
  | arr (items : List JVal)
  | obj (fields : List (String × JVal))

/-- JavaScript truthiness of a `JVal`: `null`, `NaN`, `false`, `0` and `""`
are falsy; every array and object is truthy. -/
def JVal.truthy : JVal → Bool
  | .null => false
  | .nan => false
  | .bool b => b
  | .num n => n != 0
  | .str s => s != ""
  | .arr _ => true
  | .obj _ => true

/-- Truthiness of a possibly-`undefined` JSON value (`undefined` is falsy). -/
def optTruthy : Option JVal → Bool
  | none => false
  | some v => v.truthy

/-- Truthiness of a possibly-`undefined` string (`undefined` and `""` are
falsy). -/
def strTruthy : Option String → Bool
  | none => false
  | some s => s != ""

/-- JavaScript `a || b` on possibly-`undefined` strings: `a` when truthy,
otherwise `b`. -/
def jsOrStr (a b : Option String) : Option String :=
  if strTruthy a then a else b

/-- JavaScript `s || d` for a string with a (truthy) string default, as in
`req.query.sort || 'updated'`. -/
def strOr (q : Option String) (d : String) : String :=
  match q with
  | none => d
  | some s => if s = "" then d else s

/-- JavaScript `parseInt` restricted to decimal notation: skip leading
whitespace, read an optional sign and then a longest run of decimal digits;
`none` models `NaN` (no digits found; `parseInt(undefined)` is handled by
the callers).  Hexadecimal `0x` prefixes are not modelled — no route feeds
such strings into `parseInt`. -/
def jsParseInt (s : String) : Option Int :=
  let cs := s.toList.dropWhile fun c => c == ' ' || c == '\t' || c == '\n' || c == '\r'
  let signAndRest : Bool × List Char :=
    match cs with
    | '-' :: t => (true, t)
    | '+' :: t => (false, t)
    | _ => (false, cs)
  let ds := signAndRest.2.takeWhile Char.isDigit
  if ds.isEmpty then none
  else
    let v : Nat := ds.foldl (fun acc c => acc * 10 + (c.toNat - 48)) 0
    some (if signAndRest.1 then -(v : Int) else (v : Int))

/-- JavaScript `parseInt(q) || d` on a possibly-absent query string: `NaN` (absent or
non-numeric) and `0` are falsy, so both fall back to the default `d`. -/
def intOr (q : Option String) (d : Int) : Int :=
  match q with
  | none => d
  | some s =>
    match jsParseInt s with
    | none => d
    | some n => if n = 0 then d else n

/-- JavaScript `error.status || 500` on a possibly-absent numeric status: absent and
`0` fall back to the default. -/
def natOr (q : Option Nat) (d : Nat) : Nat :=
  match q with
  | none => d
  | some n => if n = 0 then d else n

/-- The expression `Math.min(parseInt(req.query.per_page) || 30, 100)` — the page-size
expression every list route uses. -/
def perPageOf (q : Option String) : Int := min (intOr q 30) 100

/-- The expression `parseInt(req.query.page) || 1`. -/
def pageOf (q : Option String) : Int := intOr q 1

/-- JavaScript `parseInt` producing a JSON value: `NaN` when the string has no leading
decimal integer (as in `issue_number: parseInt(issue_number)`). -/
def parseIntJV (s : String) : JVal :=
  match jsParseInt s with
  | none => .nan
  | some n => .num n

/-- Process-wide configuration (lines 45–47 of `src/server.js`):
`BACKEND_PASSWORD`, `API_KEY` and `ACESS_TOKEN` (the GitHub token).
`none` models an unset environment variable. -/
structure Config where
  backendPassword : String
  apiKey : Option String
  githubToken : Option String

/-- Line 45: `BACKEND_PASSWORD = process.env.BACKEND_PASSWORD ||
'change-this-secure-password'`; the other two variables are read raw. -/
def Config.ofEnv (envPassword envApiKey envToken : Option String) : Config :=
  { backendPassword := (jsOrStr envPassword (some "change-this-secure-password")).getD
      "change-this-secure-password"
  , apiKey := envApiKey
  , githubToken := envToken }

/-- Lines 50–68: `if (GITHUB_TOKEN)` guards client creation — the Octokit client
exists exactly when the token environment variable is truthy. -/
def Config.octokitConfigured (c : Config) : Bool := strTruthy c.githubToken

/-- The parts of an inbound Express request the handlers read. Header and
path-parameter fields are `none` when absent; `body` is the JSON object
produced by the body parsers (`{}`, i.e. `[]`, when the request had no JSON
body). -/
structure Request where
  method : String
  headerPassword : Option String
  headerApiKey : Option String
  query : List (String × String)
  owner : String
  repo : String
  issueNumber : String
  wildcardPath : String
  contentsPath : Option String
  body : List (String × JVal)

/-- Line 72: `req.headers['x-password'] || req.query.password`. -/
def suppliedPassword (r : Request) : Option String :=
  jsOrStr r.headerPassword (r.query.lookup "password")

/-- Line 73: `req.headers['x-api-key'] || req.query.api_key`. -/
def suppliedApiKey (r : Request) : Option String :=
  jsOrStr r.headerApiKey (r.query.lookup "api_key")

/-- Line 76: `password && password === BACKEND_PASSWORD`. -/
def passwordValid (c : Config) (r : Request) : Bool :=
  match suppliedPassword r with
  | none => false
  | some s => s != "" && s == c.backendPassword

/-- Line 82: `API_KEY && apiKey && apiKey === API_KEY`. -/
def apiKeyValid (c : Config) (r : Request) : Bool :=
  match c.apiKey with
  | none => false
  | some k =>
    k != "" &&
      (match suppliedApiKey r with
       | none => false
       | some s => s != "" && s == k)

/-- An HTTP response: status code and JSON body (an object, as every route
responds with `res.json({...})`). -/
structure Response where
  status : Nat
  body : List (String × JVal)

/-- The body of the uniform 401 rejection (lines 87–91). -/
def unauthorizedBody (now : String) : List (String × JVal) :=
  [ ("error", .str "Unauthorized: Invalid credentials")
  , ("message", .str "Provide password via x-password header/query or API key via x-api-key header/query")
  , ("timestamp", .str now) ]

/-- Which credential admitted the request (`req.authMethod`). -/
inductive AuthMethod where
  | password
  | apiKey
deriving DecidableEq, Repr

/-- The `authenticate` middleware (lines 71–92): password check first, then
the API-key check, otherwise the uniform 401 response. -/
def authenticate (c : Config) (r : Request) (now : String) :
    Except Response AuthMethod :=
  if passwordValid c r then .ok .password
  else if apiKeyValid c r then .ok .apiKey
  else .error { status := 401, body := unauthorizedBody now }

/-
## The Forwarder: outbound calls, upstream oracle, route handlers
-/

/-- One outbound Octokit call, with the exact parameter object each route
builds.  Optional parameters are `none` when the JavaScript value is
`undefined` (Octokit omits such keys). -/
inductive Call where
  | getAuthenticatedUser
  | listReposForAuthenticatedUser (sort direction : String) (perPage page : Int)
      (visibility : String) (type? : Option String)
  | orgsListForAuthenticatedUser (perPage page : Int)
  | getRepo (owner repo : String)
  | getContent (owner repo path : String) (ref : Option String)
  | listCommits (owner repo : String) (sha path author since untilP : Option String)
      (perPage page : Int)
  | listBranches (owner repo : String) (protected? : Option String) (perPage page : Int)
  | issuesListForRepo (owner repo state : String) (labels : Option String)
      (sort direction : String) (since : Option String) (perPage page : Int)
  | issuesGet (owner repo : String) (issueNumber : JVal)
  | issuesCreate (owner repo : String) (title body labels assignees milestone : Option JVal)
  | issuesUpdate (params : List (String × JVal))
  | searchRepos (q : String) (sort order : Option String) (perPage page : Int)
  | rateLimitGet
  | request (config : List (String × JVal))

/-- A successful Octokit response: HTTP status and `data` payload. -/
structure UpstreamOk where
  status : Nat
  data : JVal

/-- A failed Octokit call: `error.status` (absent for network-level
failures) and `error.message`. -/
structure UpstreamErr where
  status : Option Nat
  message : String

/-- The Octokit client as an oracle from calls to results. -/
def Upstream := Call → Except UpstreamErr UpstreamOk

/-- A handler's observable behaviour: the response written and the outbound
calls performed, in order. -/
structure Outcome where
  response : Response
  calls : List Call

/-- The `if (!octokit) return res.status(500).json({ error: 'GitHub token
not configured' })` guard at the top of every protected handler. -/
def tokenNotConfiguredOutcome : Outcome :=
  { response := { status := 500, body := [("error", .str "GitHub token not configured")] }
  , calls := [] }

/-- Run the body of a protected handler behind the `!octokit` guard. -/
def guardToken (c : Config) (act : Outcome) : Outcome :=
  if c.octokitConfigured then act else tokenNotConfiguredOutcome

/-- The value `data.length` as serialized by `res.json`: arrays and strings have a
numeric `length`; a plain object only has one if its payload carries a
`length` field; otherwise the value is `undefined` and the `count` key is
dropped from the JSON body. -/
def countField (v : JVal) : List (String × JVal) :=
  match v with
  | .arr xs => [("count", .num (xs.length : Int))]
  | .str s => [("count", .num (s.length : Int))]
  | .obj fs =>
    match fs.lookup "length" with
    | some l => [("count", l)]
    | none => []
  | _ => []

/-- The catch-block response shared by most routes (no `status` body
field): `res.status(error.status || 500).json({ error: 'GitHub API Error',
message, timestamp })`. -/
def githubApiError (e : UpstreamErr) (now : String) : Response :=
  { status := natOr e.status 500
  , body := [ ("error", .str "GitHub API Error")
            , ("message", .str e.message)
            , ("timestamp", .str now) ] }

/-- The catch-block response of `GET /github/user` and the generic proxy,
which additionally serialize `status: error.status` (dropped when
`undefined`). -/
def githubApiErrorS (e : UpstreamErr) (now : String) : Response :=
  { status := natOr e.status 500
  , body := [ ("error", .str "GitHub API Error")
            , ("message", .str e.message) ]
      ++ (match e.status with
          | some s => [("status", .num (s : Int))]
          | none => [])
      ++ [("timestamp", .str now)] }

/-- The standard `{ success: true, data, timestamp }` envelope. -/
def successBody (data : JVal) (now : String) : List (String × JVal) :=
  [("success", .bool true), ("data", data), ("timestamp", .str now)]

/-- The `{ success: true, data, count, timestamp }` envelope of the list
routes. -/
def successCountBody (data : JVal) (now : String) : List (String × JVal) :=
  [("success", .bool true), ("data", data)] ++ countField data
    ++ [("timestamp", .str now)]

/-- Route `GET /github/user` (lines 241–261). -/
def userHandler (c : Config) (_r : Request) (up : Upstream) (now : String) : Outcome :=
  guardToken c <|
    match up Call.getAuthenticatedUser with
    | .ok ok =>
      { response := { status := 200, body := successBody ok.data now }
      , calls := [Call.getAuthenticatedUser] }
    | .error e =>
      { response := githubApiErrorS e now, calls := [Call.getAuthenticatedUser] }

/-- The parameter object of `GET /github/user/repos` (lines 269–276). -/
def userReposCall (r : Request) : Call :=
  Call.listReposForAuthenticatedUser
    (strOr (r.query.lookup "sort") "updated")
    (strOr (r.query.lookup "direction") "desc")
    (perPageOf (r.query.lookup "per_page"))
    (pageOf (r.query.lookup "page"))
    (strOr (r.query.lookup "visibility") "all")
    (some (strOr (r.query.lookup "type") "all"))

/-- Route `GET /github/user/repos` (lines 263–291). -/
def userReposHandler (c : Config) (r : Request) (up : Upstream) (now : String) : Outcome :=
  guardToken c <|
    match up (userReposCall r) with
    | .ok ok =>
      { response := { status := 200, body := successCountBody ok.data now }
      , calls := [userReposCall r] }
    | .error e => { response := githubApiError e now, calls := [userReposCall r] }

/-- The parameter object of `GET /github/user/orgs` (lines 299–302). -/
def userOrgsCall (r : Request) : Call :=
  Call.orgsListForAuthenticatedUser
    (perPageOf (r.query.lookup "per_page"))
    (pageOf (r.query.lookup "page"))

/-- Route `GET /github/user/orgs` (lines 293–317). -/
def userOrgsHandler (c : Config) (r : Request) (up : Upstream) (now : String) : Outcome :=
  guardToken c <|
    match up (userOrgsCall r) with
    | .ok ok =>
      { response := { status := 200, body := successCountBody ok.data now }
      , calls := [userOrgsCall r] }
    | .error e => { response := githubApiError e now, calls := [userOrgsCall r] }

/-- The parameter object of `GET /github/repos` (lines 326–332): no `type`
field, unlike `GET /github/user/repos`. -/
def reposCall (r : Request) : Call :=
  Call.listReposForAuthenticatedUser
    (strOr (r.query.lookup "sort") "updated")
    (strOr (r.query.lookup "direction") "desc")
    (perPageOf (r.query.lookup "per_page"))
    (pageOf (r.query.lookup "page"))
    (strOr (r.query.lookup "visibility") "all")
    none

/-- Route `GET /github/repos` (lines 320–351): the list envelope plus a
`pagination` object. -/
def reposHandler (c : Config) (r : Request) (up : Upstream) (now : String) : Outcome :=
  guardToken c <|
    match up (reposCall r) with
    | .ok ok =>
      { response :=
          { status := 200
          , body := [("success", .bool true), ("data", ok.data)]
              ++ countField ok.data
              ++ [ ("pagination", .obj
                    [ ("page", .num (pageOf (r.query.lookup "page")))
                    , ("per_page", .num (perPageOf (r.query.lookup "per_page"))) ])
                 , ("timestamp", .str now) ] }
      , calls := [reposCall r] }
    | .error e => { response := githubApiError e now, calls := [reposCall r] }

/-- Route `GET /github/repo/:owner/:repo` (lines 353–377). -/
def repoGetHandler (c : Config) (r : Request) (up : Upstream) (now : String) : Outcome :=
  guardToken c <|
    match up (Call.getRepo r.owner r.repo) with
    | .ok ok =>
      { response := { status := 200, body := successBody ok.data now }
      , calls := [Call.getRepo r.owner r.repo] }
    | .error e => { response := githubApiError e now, calls := [Call.getRepo r.owner r.repo] }

/-- The parameter object of the contents route (lines 386–391):
`path: path || ''`. -/
def contentsCall (r : Request) : Call :=
  Call.getContent r.owner r.repo (strOr r.contentsPath "") (r.query.lookup "ref")

/-- Route `GET /github/repo/:owner/:repo/contents/:path?` (lines 379–405). -/
def contentsHandler (c : Config) (r : Request) (up : Upstream) (now : String) : Outcome :=
  guardToken c <|
    match up (contentsCall r) with
    | .ok ok =>
      { response := { status := 200, body := successBody ok.data now }
      , calls := [contentsCall r] }
    | .error e => { response := githubApiError e now, calls := [contentsCall r] }

/-- The parameter object of the commits route (lines 414–424). -/
def commitsCall (r : Request) : Call :=
  Call.listCommits r.owner r.repo
    (r.query.lookup "sha") (r.query.lookup "path") (r.query.lookup "author")
    (r.query.lookup "since") (r.query.lookup "until")
    (perPageOf (r.query.lookup "per_page"))
    (pageOf (r.query.lookup "page"))

/-- Route `GET /github/repo/:owner/:repo/commits` (lines 407–439). -/
def commitsHandler (c : Config) (r : Request) (up : Upstream) (now : String) : Outcome :=
  guardToken c <|
    match up (commitsCall r) with
    | .ok ok =>
      { response := { status := 200, body := successCountBody ok.data now }
      , calls := [commitsCall r] }
    | .error e => { response := githubApiError e now, calls := [commitsCall r] }

/-- The parameter object of the branches route (lines 448–454). -/
def branchesCall (r : Request) : Call :=
  Call.listBranches r.owner r.repo (r.query.lookup "protected")
    (perPageOf (r.query.lookup "per_page"))
    (pageOf (r.query.lookup "page"))

/-- Route `GET /github/repo/:owner/:repo/branches` (lines 441–469). -/
def branchesHandler (c : Config) (r : Request) (up : Upstream) (now : String) : Outcome :=
  guardToken c <|
    match up (branchesCall r) with
    | .ok ok =>
      { response := { status := 200, body := successCountBody ok.data now }
      , calls := [branchesCall r] }
    | .error e => { response := githubApiError e now, calls := [branchesCall r] }

/-- The parameter object of the issues list route (lines 479–489). -/
def issuesListCall (r : Request) : Call :=
  Call.issuesListForRepo r.owner r.repo
    (strOr (r.query.lookup "state") "open")
    (r.query.lookup "labels")
    (strOr (r.query.lookup "sort") "created")
    (strOr (r.query.lookup "direction") "desc")
    (r.query.lookup "since")
    (perPageOf (r.query.lookup "per_page"))
    (pageOf (r.query.lookup "page"))

/-- Route `GET /github/repo/:owner/:repo/issues` (lines 472–504). -/
def issuesListHandler (c : Config) (r : Request) (up : Upstream) (now : String) : Outcome :=
  guardToken c <|
    match up (issuesListCall r) with
    | .ok ok =>
      { response := { status := 200, body := successCountBody ok.data now }
      , calls := [issuesListCall r] }
    | .error e => { response := githubApiError e now, calls := [issuesListCall r] }

/-- Route `GET /github/repo/:owner/:repo/issues/:issue_number` (lines 506–531). -/
def issueGetHandler (c : Config) (r : Request) (up : Upstream) (now : String) : Outcome :=
  guardToken c <|
    let call := Call.issuesGet r.owner r.repo (parseIntJV r.issueNumber)
    match up call with
    | .ok ok =>
      { response := { status := 200, body := successBody ok.data now }
      , calls := [call] }
    | .error e => { response := githubApiError e now, calls := [call] }

/-- The `400 Validation Error` response of the issue-creation route
(lines 543–547). -/
def titleRequiredResponse (now : String) : Response :=
  { status := 400
  , body := [ ("error", .str "Validation Error")
            , ("message", .str "Title is required")
            , ("timestamp", .str now) ] }

/-- The parameter object of `octokit.rest.issues.create` (lines 550–558):
the five body fields destructured from `req.body`, passed through as-is. -/
def issueCreateCall (r : Request) : Call :=
  Call.issuesCreate r.owner r.repo
    (r.body.lookup "title") (r.body.lookup "body") (r.body.lookup "labels")
    (r.body.lookup "assignees") (r.body.lookup "milestone")

/-- Route `POST /github/repo/:owner/:repo/issues` (lines 533–573): reject with a
400 when `title` is falsy, otherwise create with status 201. -/
def issueCreateHandler (c : Config) (r : Request) (up : Upstream) (now : String) : Outcome :=
  guardToken c <|
    if !optTruthy (r.body.lookup "title") then
      { response := titleRequiredResponse now, calls := [] }
    else
      match up (issueCreateCall r) with
      | .ok ok =>
        { response :=
            { status := 201
            , body := [ ("success", .bool true), ("data", ok.data)
                      , ("message", .str "Issue created successfully")
                      , ("timestamp", .str now) ] }
        , calls := [issueCreateCall r] }
      | .error e => { response := githubApiError e now, calls := [issueCreateCall r] }

/-- JavaScript object-literal spread `{ ...base, ...extra }` on association
lists with unique keys (as produced by `JSON.parse`): keys of `base` keep
their position, taking `extra`'s value when it has the key; keys only in
`extra` are appended. -/
def jsSpread (base extra : List (String × JVal)) : List (String × JVal) :=
  base.map (fun p => (p.1, (extra.lookup p.1).getD p.2))
    ++ extra.filter (fun p => (base.lookup p.1).isNone)

/-- The parameter object of `octokit.rest.issues.update` (lines 584–589):
`{ owner, repo, issue_number: parseInt(issue_number), ...updateData }`,
where `updateData = req.body`. -/
def issueUpdateParams (r : Request) : List (String × JVal) :=
  jsSpread
    [ ("owner", .str r.owner), ("repo", .str r.repo)
    , ("issue_number", parseIntJV r.issueNumber) ]
    r.body

/-- Route `PATCH /github/repo/:owner/:repo/issues/:issue_number` (lines 575–604). -/
def issueUpdateHandler (c : Config) (r : Request) (up : Upstream) (now : String) : Outcome :=
  guardToken c <|
    match up (Call.issuesUpdate (issueUpdateParams r)) with
    | .ok ok =>
      { response :=
          { status := 200
          , body := [ ("success", .bool true), ("data", ok.data)
                    , ("message", .str "Issue updated successfully")
                    , ("timestamp", .str now) ] }
      , calls := [Call.issuesUpdate (issueUpdateParams r)] }
    | .error e =>
      { response := githubApiError e now
      , calls := [Call.issuesUpdate (issueUpdateParams r)] }

/-- The `400 Validation Error` response of the search route (lines 616–620). -/
def queryRequiredResponse (now : String) : Response :=
  { status := 400
  , body := [ ("error", .str "Validation Error")
            , ("message", .str "Search query (q) parameter is required")
            , ("timestamp", .str now) ] }

/-- The parameter object of `octokit.rest.search.repos` (lines 623–629). -/
def searchReposCall (r : Request) : Call :=
  Call.searchRepos ((r.query.lookup "q").getD "")
    (r.query.lookup "sort") (r.query.lookup "order")
    (perPageOf (r.query.lookup "per_page"))
    (pageOf (r.query.lookup "page"))

/-- Route `GET /github/search/repos` (lines 607–643): reject with a 400 when `q`
is falsy (absent or empty), otherwise search. -/
def searchReposHandler (c : Config) (r : Request) (up : Upstream) (now : String) : Outcome :=
  guardToken c <|
    if !strTruthy (r.query.lookup "q") then
      { response := queryRequiredResponse now, calls := [] }
    else
      match up (searchReposCall r) with
      | .ok ok =>
        { response := { status := 200, body := successBody ok.data now }
        , calls := [searchReposCall r] }
      | .error e => { response := githubApiError e now, calls := [searchReposCall r] }

/-- Route `GET /github/rate-limit` (lines 646–665). -/
def rateLimitHandler (c : Config) (_r : Request) (up : Upstream) (now : String) : Outcome :=
  guardToken c <|
    match up Call.rateLimitGet with
    | .ok ok =>
      { response := { status := 200, body := successBody ok.data now }
      , calls := [Call.rateLimitGet] }
    | .error e => { response := githubApiError e now, calls := [Call.rateLimitGet] }

/-- Property assignment `obj[k] = v` on an association list with unique
keys: overwrite in place when the key exists, append otherwise. -/
def setKey (l : List (String × JVal)) (k : String) (v : JVal) :
    List (String × JVal) :=
  if (l.lookup k).isSome then
    l.map (fun p => if p.1 == k then (p.1, v) else p)
  else l ++ [(k, v)]

/-- JavaScript `toUpperCase` for ASCII strings (HTTP method names are
ASCII). -/
def jsToUpper (s : String) : String :=
  String.mk (s.toList.map fun c =>
    if 'a' ≤ c && c ≤ 'z' then Char.ofNat (c.toNat - 32) else c)

/-- Is the (upper-cased) method one of `['POST', 'PUT', 'PATCH']`? -/
def mutatingMethod (m : String) : Bool :=
  m == "POST" || m == "PUT" || m == "PATCH"

/-- The `requestConfig` object of the generic proxy (lines 678–687):
`{ method, url: '/' + path, ...req.query }`, then `requestConfig.data =
req.body` for POST/PUT/PATCH (the body parsers guarantee `req.body` is an
object, hence truthy). -/
def proxyCallConfig (r : Request) : List (String × JVal) :=
  let method := (jsToUpper r.method)
  let cfg := jsSpread
    [("method", .str method), ("url", .str ("/" ++ r.wildcardPath))]
    (r.query.map fun p => (p.1, JVal.str p.2))
  if mutatingMethod method then setKey cfg "data" (.obj r.body) else cfg

/-- Route `app.all('/github/api/*')` (lines 668–705): the generic proxy. -/
def proxyHandler (c : Config) (r : Request) (up : Upstream) (now : String) : Outcome :=
  guardToken c <|
    match up (Call.request (proxyCallConfig r)) with
    | .ok ok =>
      { response :=
          { status := 200
          , body := [ ("success", .bool true), ("data", ok.data)
                    , ("status", .num (ok.status : Int))
                    , ("timestamp", .str now) ] }
      , calls := [Call.request (proxyCallConfig r)] }
    | .error e =>
      { response := githubApiErrorS e now
      , calls := [Call.request (proxyCallConfig r)] }

/-- The protected routes of `src/server.js` (every route registered with
the `authenticate` middleware). -/
inductive RouteId where
  | user | userRepos | userOrgs | repos | repoGet | contents | commits
  | branches | issuesList | issueGet | issueCreate | issueUpdate
  | searchRepos | rateLimit | apiProxy
deriving DecidableEq, Repr

/-- The handler registered for each protected route. -/
def handlerOf : RouteId → Config → Request → Upstream → String → Outcome
  | .user => userHandler
  | .userRepos => userReposHandler
  | .userOrgs => userOrgsHandler
  | .repos => reposHandler
  | .repoGet => repoGetHandler
  | .contents => contentsHandler
  | .commits => commitsHandler
  | .branches => branchesHandler
  | .issuesList => issuesListHandler
  | .issueGet => issueGetHandler
  | .issueCreate => issueCreateHandler
  | .issueUpdate => issueUpdateHandler
  | .searchRepos => searchReposHandler
  | .rateLimit => rateLimitHandler
  | .apiProxy => proxyHandler

/-- A protected route end to end: the `authenticate` middleware, then the
route's handler. -/
def runProtected (rid : RouteId) (c : Config) (r : Request) (up : Upstream)
    (now : String) : Outcome :=
  match authenticate c r now with
  | .error resp => { response := resp, calls := [] }
  | .ok _ => handlerOf rid c r up now

/-
## The unauthenticated health endpoints
-/

/-- Ambient process facts reported by the health endpoints (uptime, memory,
`NODE_ENV`, node version, platform); opaque inputs to the handlers. -/
structure SysInfo where
  uptime : JVal
  memory : JVal
  nodeEnv : Option String
  nodeVersion : String
  platform : String

/-- Route `GET /status` (lines 204–214): always responds 200. -/
def statusHandler (c : Config) (sys : SysInfo) (now : String) : Response :=
  { status := 200
  , body := [ ("status", .str "healthy")
            , ("timestamp", .str now)
            , ("uptime", sys.uptime)
            , ("memory_usage", sys.memory)
            , ("environment", .str (strOr sys.nodeEnv "development"))
            , ("github_token_configured", .bool (strTruthy c.githubToken))
            , ("api_key_configured", .bool (strTruthy c.apiKey)) ] }

/-- The `checks` object of `GET /health` (lines 220–224). -/
def healthChecks (c : Config) : List (String × String) :=
  [ ("server", "ok")
  , ("github_api", if strTruthy c.githubToken then "configured" else "not_configured")
  , ("authentication",
      if c.backendPassword ≠ "change-this-secure-password" then "secure"
      else "default_password") ]

/-- Lines 233–235: `Object.values(health.checks).every(check => check ===
'ok' || check === 'configured' || check === 'secure')`. -/
def overallHealthy (c : Config) : Bool :=
  (healthChecks c).all fun p => p.2 == "ok" || p.2 == "configured" || p.2 == "secure"

/-- Route `GET /health` (lines 216–238): responds 200 when every check
passes and 503 otherwise. -/
def healthHandler (c : Config) (sys : SysInfo) (now : String) : Response :=
  { status := if overallHealthy c then 200 else 503
  , body := [ ("status", .str "healthy")
            , ("timestamp", .str now)
            , ("checks", .obj ((healthChecks c).map fun p => (p.1, .str p.2)))
            , ("system", .obj
                [ ("uptime", sys.uptime), ("memory", sys.memory)
                , ("node_version", .str sys.nodeVersion)
                , ("platform", .str sys.platform) ]) ] }

/-- The page-size clamp exactly as the specification words it: the minimum
of the caller-supplied value and 100, defaulting to 30 only when the
parameter is absent or non-numeric. -/
def specPerPage (q : Option String) : Int :=
  match q with
  | none => 30
  | some s =>
    match jsParseInt s with
    | none => 30
    | some n => min n 100

/-- The page-size clamp as amended: a caller value that is absent,
non-numeric or zero (JavaScript-falsy) falls back to the default 30;
any other value is clamped to at most 100. -/
def amendedPerPage (q : Option String) : Int :=
  match q with
  | none => 30
  | some s =>
    match jsParseInt s with
    | none => 30
    | some n => if n = 0 then 30 else min n 100

/-
## Concrete fixtures used by witnesses and counterexamples
-/

/-- A configuration with a password, no API key, and a GitHub token. -/
def okConfig : Config := Config.ofEnv (some "s3cret") none (some "tok")

/-- A configuration whose GitHub token environment variable is unset. -/
def noTokenConfig : Config := Config.ofEnv (some "s3cret") none none

/-- A minimal request skeleton. -/
def baseRequest : Request :=
  { method := "GET", headerPassword := some "s3cret", headerApiKey := none
  , query := [], owner := "octo", repo := "hello", issueNumber := "7"
  , wildcardPath := "user", contentsPath := none, body := [] }

/-- An upstream oracle that fails every call without an HTTP status. -/
def failUpstream : Upstream := fun _ => .error { status := none, message := "boom" }

/-- An upstream oracle that answers every call with a two-element array. -/
def pairUpstream : Upstream := fun _ => .ok { status := 200, data := .arr [.num 1, .num 2] }

/-- An upstream oracle that fails every call with HTTP 404. -/
def notFoundUpstream : Upstream :=
  fun _ => .error { status := some 404, message := "Not Found" }

/-- Ambient process facts used by health-endpoint witnesses. -/
def sys0 : SysInfo :=
  { uptime := .num 5, memory := .obj [], nodeEnv := none
  , nodeVersion := "v18.0.0", platform := "linux" }

/-- A proxy request whose query tries to override the upstream url. -/
def proxyHijackReq : Request :=
  { baseRequest with query := [("url", "/zen")] }

/-- A POST proxy request with a query parameter and a JSON body. -/
def proxyPostReq : Request :=
  { baseRequest with
      method := "POST"
      wildcardPath := "repos/octo/hello/labels"
      query := [("color", "red")]
      body := [("name", .str "bug")] }

/-- An issue-update request whose body carries an `owner` key. -/
def updateOwnerReq : Request :=
  { baseRequest with body := [("owner", .str "evil"), ("state", .str "closed")] }

/-- A configuration with a password and an API key configured. -/
def apiConfig : Config := Config.ofEnv (some "s3cret") (some "key-1") (some "tok")

/-- A request carrying a wrong password and no API key. -/
def wrongPassReq : Request := { baseRequest with headerPassword := some "wrong" }

/-- A request carrying the right password in the query and a wrong API key. -/
def queryPassReq : Request :=
  { baseRequest with
      headerPassword := none
      headerApiKey := some "bad"
      query := [("password", "s3cret")] }

/-
## Theorems
-/

/-
## Helper lemmas on association lists
-/

/-- Looking a key up after mapping a function over the values. -/
theorem lookup_map_values (f : String → JVal) (l : List (String × String))
    (k : String) :
    (l.map fun p => (p.1, f p.2)).lookup k = (l.lookup k).map f := by
  induction l with
  | nil => rfl
  | cons a t ih =>
    obtain ⟨ak, av⟩ := a
    by_cases h : k == ak <;> simp [List.lookup_cons, h, ih]

/-- Filtering with a key-determined predicate that holds at `k` does not
change what `k` looks up to. -/
theorem lookup_filter_of_key (p : String × JVal → Bool)
    (l : List (String × JVal)) (k : String) (hp : ∀ v, p (k, v) = true) :
    (l.filter p).lookup k = l.lookup k := by
  induction l with
  | nil => rfl
  | cons a t ih =>
    obtain ⟨ak, av⟩ := a
    by_cases h : k == ak
    · have hak : ak = k := (beq_iff_eq.mp h).symm
      subst hak
      simp [List.filter_cons, hp av, List.lookup_cons, h, ih]
    · cases hpa : p (ak, av) <;>
        simp [List.filter_cons, hpa, List.lookup_cons, h, ih]

/-- Lookup distributes into an append whose left part misses the key. -/
theorem lookup_append_of_none (l m : List (String × JVal)) (k : String)
    (h : l.lookup k = none) : (l ++ m).lookup k = m.lookup k := by
  induction l with
  | nil => rfl
  | cons a t ih =>
    obtain ⟨ak, av⟩ := a
    by_cases hk : k = ak
    · have hb : (k == ak) = true := beq_iff_eq.mpr hk
      rw [List.lookup_cons] at h
      simp only [hb] at h
      exact Option.noConfusion h
    · have hb : (k == ak) = false := beq_eq_false_iff_ne.mpr hk
      rw [List.lookup_cons] at h
      simp only [hb] at h
      rw [List.cons_append, List.lookup_cons]
      simp only [hb]
      exact ih h

/-- Lookup stops in the left part of an append when it has the key. -/
theorem lookup_append_of_some (l m : List (String × JVal)) (k : String)
    (w : JVal) (h : l.lookup k = some w) : (l ++ m).lookup k = some w := by
  induction l with
  | nil => exact Option.noConfusion h
  | cons a t ih =>
    obtain ⟨ak, av⟩ := a
    by_cases hk : k = ak
    · have hb : (k == ak) = true := beq_iff_eq.mpr hk
      rw [List.lookup_cons] at h
      rw [List.cons_append, List.lookup_cons]
      simp only [hb] at h ⊢
      exact h
    · have hb : (k == ak) = false := beq_eq_false_iff_ne.mpr hk
      rw [List.lookup_cons] at h
      rw [List.cons_append, List.lookup_cons]
      simp only [hb] at h ⊢
      exact ih h

/-- Overwriting the value at key `k` across a whole list makes `k` look up
to the new value, provided the key was present. -/
theorem lookup_map_overwrite (l : List (String × JVal)) (k : String)
    (v : JVal) (h : (l.lookup k).isSome = true) :
    (l.map fun p => if p.1 == k then (p.1, v) else p).lookup k = some v := by
  induction l with
  | nil => simp at h
  | cons a t ih =>
    obtain ⟨ak, av⟩ := a
    by_cases hk : k = ak
    · subst hk
      simp [List.lookup_cons]
    · have hb : (k == ak) = false := beq_eq_false_iff_ne.mpr hk
      have hb' : (ak == k) = false := beq_eq_false_iff_ne.mpr (Ne.symm hk)
      rw [List.lookup_cons] at h
      simp only [hb] at h
      rw [List.map_cons, List.lookup_cons]
      simp only [hb', Bool.false_eq_true, if_false, hb]
      exact ih h

/-- Overwriting the value at key `k` leaves every other key unchanged. -/
theorem lookup_map_overwrite_other (l : List (String × JVal)) (k : String)
    (v : JVal) (k' : String) (h : (k' == k) = false) :
    (l.map fun p => if p.1 == k then (p.1, v) else p).lookup k' = l.lookup k' := by
  induction l with
  | nil => rfl
  | cons a t ih =>
    obtain ⟨ak, av⟩ := a
    by_cases hak : ak = k
    · subst hak
      rw [List.map_cons, List.lookup_cons, List.lookup_cons]
      simp only [beq_self_eq_true, if_true, h]
      exact ih
    · have hb' : (ak == k) = false := beq_eq_false_iff_ne.mpr hak
      rw [List.map_cons, List.lookup_cons, List.lookup_cons]
      simp only [hb', Bool.false_eq_true, if_false]
      by_cases h2 : k' = ak
      · have hb2 : (k' == ak) = true := beq_iff_eq.mpr h2
        simp only [hb2]
      · have hb2 : (k' == ak) = false := beq_eq_false_iff_ne.mpr h2
        simp only [hb2]
        exact ih

/-- After `setKey l k v`, the key `k` looks up to `v`. -/
theorem setKey_lookup_self (l : List (String × JVal)) (k : String) (v : JVal) :
    (setKey l k v).lookup k = some v := by
  unfold setKey
  by_cases h : (l.lookup k).isSome
  · simp only [h, if_true]
    exact lookup_map_overwrite l k v h
  · simp only [h, Bool.false_eq_true, if_false]
    have hnone : l.lookup k = none := by
      cases hl : l.lookup k
      · rfl
      · simp [hl] at h
    rw [lookup_append_of_none _ _ _ hnone]
    simp

/-- Other keys are untouched by `setKey`. -/
theorem setKey_lookup_other (l : List (String × JVal)) (k : String) (v : JVal)
    (k' : String) (h : k' ≠ k) :
    (setKey l k v).lookup k' = l.lookup k' := by
  have hb : (k' == k) = false := beq_eq_false_iff_ne.mpr h
  unfold setKey
  by_cases hs : (l.lookup k).isSome
  · simp only [hs, if_true]
    exact lookup_map_overwrite_other l k v k' hb
  · simp only [hs, Bool.false_eq_true, if_false]
    cases hl : l.lookup k'
    · rw [lookup_append_of_none _ _ _ hl]
      simp [List.lookup_cons, hb]
    · exact lookup_append_of_some _ _ _ _ hl

/-
### Claims C1 and C2: the Access Gate
-/

/-- The configured backend password is never the empty string: an unset or
empty environment variable falls back to the (non-empty) default. -/
theorem ofEnv_backendPassword_ne_empty (e k t : Option String) :
    (Config.ofEnv e k t).backendPassword ≠ "" := by
  unfold Config.ofEnv jsOrStr strTruthy
  match e with
  | none => simp
  | some s =>
    by_cases hs : s = "" <;> simp [hs]

/-- Claim C1: a request that presents the configured password in neither
credential slot, and (when an API key is configured) presents the
configured API key in neither of its slots, is rejected with status 401
and the one fixed error body `unauthorizedBody now` — independent of the
request, so any two rejected requests served at the same timestamp receive
identical responses — and no protected handler runs and no outbound call is
made. -/
theorem access_gate_uniform_rejection (c : Config) (r : Request) (now : String)
    (hph : r.headerPassword ≠ some c.backendPassword)
    (hpq : r.query.lookup "password" ≠ some c.backendPassword)
    (hkh : ∀ k, c.apiKey = some k → r.headerApiKey ≠ some k)
    (hkq : ∀ k, c.apiKey = some k → r.query.lookup "api_key" ≠ some k) :
    authenticate c r now =
      .error { status := 401, body := unauthorizedBody now } ∧
    ∀ (rid : RouteId) (up : Upstream),
      runProtected rid c r up now =
        { response := { status := 401, body := unauthorizedBody now }
        , calls := [] } := by
  have hpw : passwordValid c r = false := by
    unfold passwordValid suppliedPassword jsOrStr
    rcases hh : r.headerPassword with _ | s
    · rcases hq : r.query.lookup "password" with _ | s
      · simp [strTruthy]
      · rw [hq] at hpq
        simp [strTruthy]
        intro _
        exact fun heq => hpq (by rw [heq])
    · rw [hh] at hph
      by_cases hs : s = ""
      · subst hs
        rcases hq : r.query.lookup "password" with _ | s2
        · simp [strTruthy]
        · rw [hq] at hpq
          simp [strTruthy]
          intro _
          exact fun heq => hpq (by rw [heq])
      · simp [strTruthy, hs]
        exact fun heq => hph (by rw [heq])
  have hak : apiKeyValid c r = false := by
    unfold apiKeyValid suppliedApiKey jsOrStr
    rcases hk : c.apiKey with _ | k
    · rfl
    · have hkh2 := hkh k hk
      have hkq2 := hkq k hk
      rcases hh : r.headerApiKey with _ | s
      · rcases hq : r.query.lookup "api_key" with _ | s2
        · simp [strTruthy]
        · rw [hq] at hkq2
          simp [strTruthy]
          intro _ _
          exact fun heq => hkq2 (by rw [heq])
      · rw [hh] at hkh2
        by_cases hs : s = ""
        · subst hs
          rcases hq : r.query.lookup "api_key" with _ | s2
          · simp [strTruthy]
          · rw [hq] at hkq2
            simp [strTruthy]
            intro _ _
            exact fun heq => hkq2 (by rw [heq])
        · simp [strTruthy, hs]
          intro _
          exact fun heq => hkh2 (by rw [heq])
  have hmain : authenticate c r now =
      .error { status := 401, body := unauthorizedBody now } := by
    unfold authenticate
    rw [hpw, hak]
    rfl
  exact ⟨hmain, fun rid up => by simp [runProtected, hmain]⟩

/-- Witness for `access_gate_uniform_rejection`: a concrete request carrying
a wrong password and no API key is rejected with the uniform 401 body and
no outbound call, however eagerly the upstream would have answered. -/
theorem access_gate_uniform_rejection_witness :
    authenticate apiConfig wrongPassReq "t0" =
      .error { status := 401, body := unauthorizedBody "t0" } ∧
    runProtected RouteId.user apiConfig wrongPassReq pairUpstream "t0" =
      { response := { status := 401, body := unauthorizedBody "t0" }
      , calls := [] } :=
  ⟨(access_gate_uniform_rejection apiConfig wrongPassReq "t0"
      (by decide) (by decide)
      (by intro k hk; simp [wrongPassReq, baseRequest])
      (by intro k hk; simp [wrongPassReq, baseRequest])).1,
   (access_gate_uniform_rejection apiConfig wrongPassReq "t0"
      (by decide) (by decide)
      (by intro k hk; simp [wrongPassReq, baseRequest])
      (by intro k hk; simp [wrongPassReq, baseRequest])).2 RouteId.user pairUpstream⟩

/-- Claim C2: when the supplied password (the `x-password` header, falling
back to the `password` query parameter) equals the configured password, the
gate admits and tags the request with the `password` credential kind —
whatever the API-key configuration and whatever API-key fields the request
carries — and every protected route then runs its handler. -/
theorem access_gate_password_admits (e k t : Option String) (r : Request)
    (now : String)
    (h : suppliedPassword r = some (Config.ofEnv e k t).backendPassword) :
    authenticate (Config.ofEnv e k t) r now = .ok .password ∧
    ∀ (rid : RouteId) (up : Upstream),
      runProtected rid (Config.ofEnv e k t) r up now =
        handlerOf rid (Config.ofEnv e k t) r up now := by
  have hpw : passwordValid (Config.ofEnv e k t) r = true := by
    unfold passwordValid
    rw [h]
    have hne := ofEnv_backendPassword_ne_empty e k t
    simp [hne]
  have hmain : authenticate (Config.ofEnv e k t) r now = .ok .password := by
    unfold authenticate
    rw [hpw]
    rfl
  exact ⟨hmain, fun rid up => by simp [runProtected, hmain]⟩

/-- Witness for `access_gate_password_admits`: a request supplying the right
password via the query parameter (and a wrong API key) is admitted as
`password`. -/
theorem access_gate_password_admits_witness :
    authenticate (Config.ofEnv (some "s3cret") (some "key-1") none)
      queryPassReq "t0" = .ok .password :=
  (access_gate_password_admits (some "s3cret") (some "key-1") none
    queryPassReq "t0" (by decide)).1

/-- The health verdict is exactly: token configured and password changed
from the default. -/
theorem overallHealthy_iff (c : Config) :
    overallHealthy c = true ↔
      (strTruthy c.githubToken = true ∧
        c.backendPassword ≠ "change-this-secure-password") := by
  unfold overallHealthy healthChecks
  by_cases ht : strTruthy c.githubToken <;>
    by_cases hp : c.backendPassword = "change-this-secure-password" <;>
      simp [ht, hp]

/-
## Claim C3: no upstream client configured
-/

/-- Claim C3: when the GitHub token is not configured, every protected
route responds with the 500 configuration error and performs zero
outbound calls, whatever the request and whatever the upstream would
answer. -/
theorem no_token_means_config_error_and_no_calls (rid : RouteId) (c : Config)
    (r : Request) (up : Upstream) (now : String)
    (h : c.octokitConfigured = false) :
    handlerOf rid c r up now = tokenNotConfiguredOutcome := by
  cases rid <;>
    simp [handlerOf, userHandler, userReposHandler, userOrgsHandler,
      reposHandler, repoGetHandler, contentsHandler, commitsHandler,
      branchesHandler, issuesListHandler, issueGetHandler, issueCreateHandler,
      issueUpdateHandler, searchReposHandler, rateLimitHandler, proxyHandler,
      guardToken, h]

/-- Witness for `no_token_means_config_error_and_no_calls`: the user route
under a token-less configuration. -/
theorem no_token_means_config_error_and_no_calls_witness :
    handlerOf RouteId.user noTokenConfig baseRequest pairUpstream "t0" =
      tokenNotConfiguredOutcome :=
  no_token_means_config_error_and_no_calls RouteId.user noTokenConfig
    baseRequest pairUpstream "t0" rfl

/-
## Claim C4: issue-creation validation and pass-through
-/

/-- Claim C4: an admitted issue-creation request with an absent or empty
title gets the 400 validation response and no outbound call is made; with
a non-empty title, exactly one create-issue call is made carrying the
body's `title`, `body`, `labels`, `assignees` and `milestone` unchanged. -/
theorem issue_create_validation_and_passthrough (c : Config) (r : Request)
    (up : Upstream) (now : String) (hok : c.octokitConfigured = true) :
    ((r.body.lookup "title" = none ∨ r.body.lookup "title" = some (.str "")) →
      issueCreateHandler c r up now =
        { response := titleRequiredResponse now, calls := [] }) ∧
    (∀ s : String, r.body.lookup "title" = some (.str s) → s ≠ "" →
      (issueCreateHandler c r up now).calls =
        [Call.issuesCreate r.owner r.repo (some (.str s))
          (r.body.lookup "body") (r.body.lookup "labels")
          (r.body.lookup "assignees") (r.body.lookup "milestone")]) := by
  constructor
  · intro h
    rcases h with h | h <;>
      simp [issueCreateHandler, guardToken, hok, h, optTruthy, JVal.truthy]
  · intro s hs hne
    have ht : optTruthy (r.body.lookup "title") = true := by
      simp [hs, optTruthy, JVal.truthy, hne]
    simp only [issueCreateHandler, guardToken, hok, if_true, ht,
      Bool.not_true, Bool.false_eq_true, if_false]
    unfold issueCreateCall
    rw [hs]
    cases up (Call.issuesCreate r.owner r.repo (some (.str s))
        (r.body.lookup "body") (r.body.lookup "labels")
        (r.body.lookup "assignees") (r.body.lookup "milestone")) <;> rfl

/-- Witness for `issue_create_validation_and_passthrough`: a body without a
title is rejected locally; a body titled `"Bug"` yields exactly one
create-issue call carrying the body fields. -/
theorem issue_create_validation_and_passthrough_witness :
    issueCreateHandler okConfig baseRequest failUpstream "t0" =
      { response := titleRequiredResponse "t0", calls := [] } ∧
    (issueCreateHandler okConfig
        { baseRequest with
            body := [("title", .str "Bug"), ("body", .str "desc"),
                     ("labels", .arr [.str "bug"])] }
        failUpstream "t0").calls =
      [Call.issuesCreate "octo" "hello" (some (.str "Bug"))
        (some (.str "desc")) (some (.arr [.str "bug"])) none none] :=
  ⟨(issue_create_validation_and_passthrough okConfig baseRequest failUpstream
      "t0" rfl).1 (Or.inl rfl),
   (issue_create_validation_and_passthrough okConfig
      { baseRequest with
          body := [("title", .str "Bug"), ("body", .str "desc"),
                   ("labels", .arr [.str "bug"])] }
      failUpstream "t0" rfl).2 "Bug" rfl (by decide)⟩

/-
## Claim C5: search validation and page-size clamp
-/

/-- The code's page-size expression computes the amended clamp. -/
theorem perPageOf_eq_amended (q : Option String) :
    perPageOf q = amendedPerPage q := by
  unfold perPageOf amendedPerPage intOr
  rcases q with _ | s
  · norm_num
  · rcases hj : jsParseInt s with _ | n
    · simp only [hj]
      norm_num
    · by_cases h : n = 0
      · subst h
        norm_num [hj]
      · simp [hj, h]

/-- Counterexample to claim C5 as stated: a search request supplying
`per_page=0` (present and numeric, so the claim predicts
`min 0 100 = 0`) produces an upstream call with `per_page = 30`. -/
theorem search_per_page_claim_counterexample :
    (searchReposHandler okConfig
        { baseRequest with query := [("q", "lean"), ("per_page", "0")] }
        failUpstream "t0").calls =
      [Call.searchRepos "lean" none none 30 1] ∧
    specPerPage (some "0") = 0 ∧ (30 : Int) ≠ 0 := by
  refine ⟨rfl, by decide, by decide⟩

/-- Claim C5 as amended: an admitted search request without a (truthy)
query term gets the 400 validation response and no outbound call; with a
query term, the single outbound call's `per_page` is the caller's value
clamped to at most 100, falling back to 30 when the value is absent,
non-numeric, or zero (JavaScript-falsy). -/
theorem search_validation_and_per_page_clamp (c : Config) (r : Request)
    (up : Upstream) (now : String) (hok : c.octokitConfigured = true) :
    (strTruthy (r.query.lookup "q") = false →
      searchReposHandler c r up now =
        { response := queryRequiredResponse now, calls := [] }) ∧
    (∀ s : String, r.query.lookup "q" = some s → s ≠ "" →
      (searchReposHandler c r up now).calls =
        [Call.searchRepos s (r.query.lookup "sort") (r.query.lookup "order")
          (amendedPerPage (r.query.lookup "per_page"))
          (pageOf (r.query.lookup "page"))]) := by
  constructor
  · intro h
    simp [searchReposHandler, guardToken, hok, h]
  · intro s hs hne
    have ht : strTruthy (r.query.lookup "q") = true := by
      simp [hs, strTruthy, hne]
    simp only [searchReposHandler, guardToken, hok, if_true, ht,
      Bool.not_true, Bool.false_eq_true, if_false]
    unfold searchReposCall
    rw [hs, Option.getD_some, perPageOf_eq_amended]
    cases hup : up (Call.searchRepos s
        (r.query.lookup "sort") (r.query.lookup "order")
        (amendedPerPage (r.query.lookup "per_page"))
        (pageOf (r.query.lookup "page"))) <;> simp [hup]

/-- Witness for `search_validation_and_per_page_clamp`: a caller requesting
`per_page=500` yields an upstream call with `per_page = 100`. -/
theorem search_per_page_clamp_witness :
    amendedPerPage (some "500") = 100 ∧
    (searchReposHandler okConfig
        { baseRequest with query := [("q", "lean"), ("per_page", "500")] }
        failUpstream "t0").calls =
      [Call.searchRepos "lean" none none 100 1] := by
  refine ⟨by decide, ?_⟩
  have h := (search_validation_and_per_page_clamp okConfig
    { baseRequest with query := [("q", "lean"), ("per_page", "500")] }
    failUpstream "t0" rfl).2 "lean" rfl (by decide)
  exact h

/-
## Claim C6: success envelope of the list routes
-/

/-- Claim C6: when the upstream call of a list route (the repository list
and the issue list) succeeds with an array of `N` items, the response is
a 200 whose envelope carries `success: true`, the upstream payload
unchanged under `data`, `count = N`, and the generation timestamp — and
exactly that one call was made. -/
theorem list_routes_success_envelope (c : Config) (r : Request)
    (up : Upstream) (now : String) (hok : c.octokitConfigured = true)
    (xs ys : List JVal) (st1 st2 : Nat)
    (h1 : up (reposCall r) = .ok { status := st1, data := .arr xs })
    (h2 : up (issuesListCall r) = .ok { status := st2, data := .arr ys }) :
    ((reposHandler c r up now).response.status = 200 ∧
     (reposHandler c r up now).calls = [reposCall r] ∧
     (reposHandler c r up now).response.body.lookup "success" = some (.bool true) ∧
     (reposHandler c r up now).response.body.lookup "data" = some (.arr xs) ∧
     (reposHandler c r up now).response.body.lookup "count" =
       some (.num (xs.length : Int)) ∧
     (reposHandler c r up now).response.body.lookup "timestamp" = some (.str now)) ∧
    ((issuesListHandler c r up now).response.status = 200 ∧
     (issuesListHandler c r up now).calls = [issuesListCall r] ∧
     (issuesListHandler c r up now).response.body.lookup "success" = some (.bool true) ∧
     (issuesListHandler c r up now).response.body.lookup "data" = some (.arr ys) ∧
     (issuesListHandler c r up now).response.body.lookup "count" =
       some (.num (ys.length : Int)) ∧
     (issuesListHandler c r up now).response.body.lookup "timestamp" = some (.str now)) := by
  constructor
  · simp [reposHandler, guardToken, hok, h1, countField, List.lookup_cons,
      List.lookup]
  · simp [issuesListHandler, guardToken, hok, h2, successCountBody,
      countField, List.lookup_cons, List.lookup]

/-- Witness for `list_routes_success_envelope`: an upstream answering both
list calls with a two-element array yields envelopes with `count = 2` and
the array unchanged. -/
theorem list_routes_success_envelope_witness :
    (reposHandler okConfig baseRequest pairUpstream "t0").response.body.lookup
        "count" = some (.num 2) ∧
    (issuesListHandler okConfig baseRequest pairUpstream "t0").response.body.lookup
        "data" = some (.arr [.num 1, .num 2]) :=
  ⟨((list_routes_success_envelope okConfig baseRequest pairUpstream "t0" rfl
      [.num 1, .num 2] [.num 1, .num 2] 200 200 rfl rfl).1).2.2.2.2.1,
   ((list_routes_success_envelope okConfig baseRequest pairUpstream "t0" rfl
      [.num 1, .num 2] [.num 1, .num 2] 200 200 rfl rfl).2).2.2.2.1⟩

/-
## Claim C7: upstream error propagation
-/

/-- Claim C7: when the single outbound call of `GET /github/user` fails,
the call was made exactly once (never retried), the response status is the
upstream-reported status code when one is present (and 500 when absent),
and the error envelope carries the category label `GitHub API Error`, the
upstream message verbatim, and the timestamp. -/
theorem upstream_error_propagation (c : Config) (r : Request) (up : Upstream)
    (now : String) (hok : c.octokitConfigured = true) (e : UpstreamErr)
    (h : up Call.getAuthenticatedUser = .error e) :
    (userHandler c r up now).calls = [Call.getAuthenticatedUser] ∧
    (∀ s : Nat, e.status = some s → 0 < s →
      (userHandler c r up now).response.status = s) ∧
    (e.status = none → (userHandler c r up now).response.status = 500) ∧
    (userHandler c r up now).response.body.lookup "error" =
      some (.str "GitHub API Error") ∧
    (userHandler c r up now).response.body.lookup "message" =
      some (.str e.message) ∧
    (userHandler c r up now).response.body.lookup "timestamp" =
      some (.str now) := by
  obtain ⟨st, msg⟩ := e
  refine ⟨?_, ?_, ?_, ?_, ?_, ?_⟩
  · simp [userHandler, guardToken, hok, h]
  · intro s hs hpos
    rcases st with _ | st
    · exact Option.noConfusion hs
    · have hst : st = s := by simpa using hs
      subst hst
      have hne : st ≠ 0 := Nat.pos_iff_ne_zero.mp hpos
      simp [userHandler, guardToken, hok, h, githubApiErrorS, natOr, hne]
  · intro hs
    subst hs
    simp [userHandler, guardToken, hok, h, githubApiErrorS, natOr]
  · rcases st with _ | st <;>
      simp [userHandler, guardToken, hok, h, githubApiErrorS, List.lookup_cons]
  · rcases st with _ | st <;>
      simp [userHandler, guardToken, hok, h, githubApiErrorS, List.lookup_cons]
  · rcases st with _ | st <;>
      simp [userHandler, guardToken, hok, h, githubApiErrorS, List.lookup_cons]

/-- Witness for `upstream_error_propagation`: a 404 upstream failure is
propagated with status 404 and its message verbatim. -/
theorem upstream_error_propagation_witness :
    (userHandler okConfig baseRequest notFoundUpstream "t0").response.status = 404 ∧
    (userHandler okConfig baseRequest notFoundUpstream "t0").response.body.lookup
        "message" = some (.str "Not Found") :=
  ⟨(upstream_error_propagation okConfig baseRequest notFoundUpstream "t0" rfl
      { status := some 404, message := "Not Found" } rfl).2.1 404 rfl
      (by decide),
   (upstream_error_propagation okConfig baseRequest notFoundUpstream "t0" rfl
      { status := some 404, message := "Not Found" } rfl).2.2.2.2.1⟩

/-
## Claim C8: the unauthenticated health endpoints
-/

/-- Counterexample to claim C8 as stated: with no upstream credential
configured, `GET /health` responds 503, not 200. -/
theorem health_endpoint_claim_counterexample :
    (healthHandler noTokenConfig sys0 "t0").status = 503 ∧ (503 : Nat) ≠ 200 := by
  refine ⟨rfl, by decide⟩

/-- Claim C8 as amended: `GET /status` always responds 200 and reports
`github_token_configured` true exactly when the upstream credential is
set (and is credential-independent: it never reads the gate credentials);
`GET /health` reports the same configuration facts through its `checks`
object — including whether the password differs from its insecure
default — but responds 200 only when the token is configured and the
password is non-default, and 503 otherwise. -/
theorem status_health_reporting (c : Config) (sys : SysInfo) (now : String) :
    (statusHandler c sys now).status = 200 ∧
    (statusHandler c sys now).body.lookup "github_token_configured" =
      some (.bool (strTruthy c.githubToken)) ∧
    (healthHandler c sys now).status =
      (if strTruthy c.githubToken = true ∧
          c.backendPassword ≠ "change-this-secure-password" then 200 else 503) ∧
    (healthHandler c sys now).body.lookup "checks" =
      some (.obj
        [ ("server", .str "ok")
        , ("github_api",
            .str (if strTruthy c.githubToken then "configured" else "not_configured"))
        , ("authentication",
            .str (if c.backendPassword ≠ "change-this-secure-password" then "secure"
                  else "default_password")) ]) := by
  refine ⟨rfl, ?_, ?_, ?_⟩
  · simp [statusHandler, List.lookup_cons]
  · by_cases hh : overallHealthy c = true
    · have := (overallHealthy_iff c).mp hh
      simp [healthHandler, hh, this]
    · have hnot := hh
      rw [overallHealthy_iff] at hnot
      have hb : overallHealthy c = false := by
        cases ho : overallHealthy c
        · rfl
        · exact absurd ho hh
      simp [healthHandler, hb, hnot]
  · simp [healthHandler, healthChecks, List.lookup_cons]

/-
## Claim C9: the generic pass-through proxy
-/

/-- Counterexample to claim C9 as stated: a caller-supplied query
parameter named `url` is spread into the outbound request configuration
after the path-derived fields, so the single outbound call of
`GET /github/api/user?url=/zen` targets `/zen`, not the corresponding
upstream path `/user`. -/
theorem proxy_claim_counterexample :
    (proxyHandler okConfig proxyHijackReq failUpstream "t0").calls =
      [Call.request [("method", .str "GET"), ("url", .str "/zen")]] ∧
    "/" ++ proxyHijackReq.wildcardPath = "/user" ∧
    ("/zen" : String) ≠ "/user" := by
  refine ⟨by rfl, by rfl, by decide⟩

/-- Claim C9 as amended: for an admitted catch-all request whose query
carries no parameter named `method` or `url`, the single outbound call's
configuration targets the upstream path `'/' ++ path` with the request's
(upper-cased) method, carries every caller-supplied query parameter not
named `method`, `url` or `data`, and for POST/PUT/PATCH carries the
caller's JSON body verbatim under `data`. -/
theorem proxy_forwarding (c : Config) (r : Request) (up : Upstream)
    (now : String) (hok : c.octokitConfigured = true)
    (hm : r.query.lookup "method" = none) (hu : r.query.lookup "url" = none) :
    (proxyHandler c r up now).calls = [Call.request (proxyCallConfig r)] ∧
    (proxyCallConfig r).lookup "method" = some (.str (jsToUpper r.method)) ∧
    (proxyCallConfig r).lookup "url" = some (.str ("/" ++ r.wildcardPath)) ∧
    (mutatingMethod (jsToUpper r.method) = true →
      (proxyCallConfig r).lookup "data" = some (.obj r.body)) ∧
    (∀ k v, r.query.lookup k = some v → k ≠ "method" → k ≠ "url" → k ≠ "data" →
      (proxyCallConfig r).lookup k = some (.str v)) := by
  have hm' : (r.query.map fun p => (p.1, JVal.str p.2)).lookup "method" = none := by
    rw [lookup_map_values JVal.str r.query "method", hm]
    rfl
  have hu' : (r.query.map fun p => (p.1, JVal.str p.2)).lookup "url" = none := by
    rw [lookup_map_values JVal.str r.query "url", hu]
    rfl
  have hbase : ∀ kk : String, kk ≠ "method" → kk ≠ "url" →
      ([ ("method", JVal.str (jsToUpper r.method))
       , ("url", JVal.str ("/" ++ r.wildcardPath)) ] : List (String × JVal)).lookup kk
        = none := by
    intro kk h1 h2
    have hb1 : (kk == "method") = false := beq_eq_false_iff_ne.mpr h1
    have hb2 : (kk == "url") = false := beq_eq_false_iff_ne.mpr h2
    simp [List.lookup_cons, hb1, hb2]
  have hcfg0 : jsSpread
      [ ("method", JVal.str (jsToUpper r.method))
      , ("url", JVal.str ("/" ++ r.wildcardPath)) ]
      (r.query.map fun p => (p.1, JVal.str p.2)) =
      [ ("method", JVal.str (jsToUpper r.method))
      , ("url", JVal.str ("/" ++ r.wildcardPath)) ]
      ++ (r.query.map fun p => (p.1, JVal.str p.2)).filter
           (fun p => (([ ("method", JVal.str (jsToUpper r.method))
                       , ("url", JVal.str ("/" ++ r.wildcardPath)) ]
                        : List (String × JVal)).lookup p.1).isNone) := by
    unfold jsSpread
    simp only [List.map_cons, List.map_nil, hm', hu', Option.getD_none]
  have hrest : ∀ kk : String, kk ≠ "method" → kk ≠ "url" →
      (([ ("method", JVal.str (jsToUpper r.method))
        , ("url", JVal.str ("/" ++ r.wildcardPath)) ] : List (String × JVal))
        ++ (r.query.map fun p => (p.1, JVal.str p.2)).filter
             (fun p => (([ ("method", JVal.str (jsToUpper r.method))
                         , ("url", JVal.str ("/" ++ r.wildcardPath)) ]
                          : List (String × JVal)).lookup p.1).isNone)).lookup kk
        = (r.query.lookup kk).map JVal.str := by
    intro kk h1 h2
    rw [lookup_append_of_none _ _ _ (hbase kk h1 h2)]
    rw [lookup_filter_of_key _ _ kk (by simp [hbase kk h1 h2])]
    exact lookup_map_values JVal.str r.query kk
  refine ⟨?_, ?_, ?_, ?_, ?_⟩
  · simp only [proxyHandler, guardToken, hok, if_true]
    cases hup : up (Call.request (proxyCallConfig r)) <;> simp [hup]
  · unfold proxyCallConfig
    simp only [hcfg0]
    by_cases hmut : mutatingMethod (jsToUpper r.method) = true
    · simp only [hmut, if_true]
      rw [setKey_lookup_other _ _ _ _ (by decide)]
      simp [List.lookup_cons]
    · have hmf : mutatingMethod (jsToUpper r.method) = false :=
        Bool.not_eq_true _ ▸ Bool.of_not_eq_true hmut
      simp only [hmf, Bool.false_eq_true, if_false]
      simp [List.lookup_cons]
  · unfold proxyCallConfig
    simp only [hcfg0]
    by_cases hmut : mutatingMethod (jsToUpper r.method) = true
    · simp only [hmut, if_true]
      rw [setKey_lookup_other _ _ _ _ (by decide)]
      simp [List.lookup_cons]
    · have hmf : mutatingMethod (jsToUpper r.method) = false :=
        Bool.not_eq_true _ ▸ Bool.of_not_eq_true hmut
      simp only [hmf, Bool.false_eq_true, if_false]
      simp [List.lookup_cons]
  · intro hmut
    unfold proxyCallConfig
    simp only [hcfg0, hmut, if_true]
    exact setKey_lookup_self _ _ _
  · intro k v hkv h1 h2 h3
    unfold proxyCallConfig
    simp only [hcfg0]
    by_cases hmut : mutatingMethod (jsToUpper r.method) = true
    · simp only [hmut, if_true]
      rw [setKey_lookup_other _ _ _ _ h3]
      rw [hrest k h1 h2, hkv]
      rfl
    · have hmf : mutatingMethod (jsToUpper r.method) = false :=
        Bool.not_eq_true _ ▸ Bool.of_not_eq_true hmut
      simp only [hmf, Bool.false_eq_true, if_false]
      rw [hrest k h1 h2, hkv]
      rfl

/-- Witness for `proxy_forwarding`: a POST through the proxy with one
query parameter and a JSON body produces one upstream call carrying the
method, the path, the query parameter and the body. -/
theorem proxy_forwarding_witness :
    (proxyHandler okConfig proxyPostReq failUpstream "t0").calls =
      [Call.request (proxyCallConfig proxyPostReq)] ∧
    (proxyCallConfig proxyPostReq).lookup "url" =
      some (.str "/repos/octo/hello/labels") ∧
    (proxyCallConfig proxyPostReq).lookup "data" =
      some (.obj [("name", .str "bug")]) ∧
    (proxyCallConfig proxyPostReq).lookup "color" = some (.str "red") := by
  have h := proxy_forwarding okConfig proxyPostReq failUpstream "t0" rfl rfl rfl
  exact ⟨h.1, h.2.2.1, h.2.2.2.1 (by rfl), h.2.2.2.2 "color" "red" rfl
    (by decide) (by decide) (by decide)⟩

/-
## Claim C10: issue-update body spread overrides path parameters
-/

/-- Claim C10: the issue-update call spreads the caller's JSON body after
the path-derived fields, so `owner`, `repo` and `issue_number` take the
body's value whenever the body has that key, and the path-derived value
otherwise — and exactly one update call is made. -/
theorem issue_update_body_overrides_path (c : Config) (r : Request)
    (up : Upstream) (now : String) (hok : c.octokitConfigured = true) :
    (issueUpdateHandler c r up now).calls =
      [Call.issuesUpdate (issueUpdateParams r)] ∧
    (issueUpdateParams r).lookup "owner" =
      some ((r.body.lookup "owner").getD (.str r.owner)) ∧
    (issueUpdateParams r).lookup "repo" =
      some ((r.body.lookup "repo").getD (.str r.repo)) ∧
    (issueUpdateParams r).lookup "issue_number" =
      some ((r.body.lookup "issue_number").getD (parseIntJV r.issueNumber)) := by
  refine ⟨?_, ?_, ?_, ?_⟩
  · simp only [issueUpdateHandler, guardToken, hok, if_true]
    cases hup : up (Call.issuesUpdate (issueUpdateParams r)) <;> simp [hup]
  · simp [issueUpdateParams, jsSpread, List.lookup_cons]
  · simp [issueUpdateParams, jsSpread, List.lookup_cons]
  · simp [issueUpdateParams, jsSpread, List.lookup_cons]

/-- Witness for `issue_update_body_overrides_path`: a body carrying
`owner` redirects the update call's `owner` away from the URL path, while
`repo` keeps the path value. -/
theorem issue_update_body_overrides_path_witness :
    (issueUpdateHandler okConfig updateOwnerReq failUpstream "t0").calls =
      [Call.issuesUpdate (issueUpdateParams updateOwnerReq)] ∧
    (issueUpdateParams updateOwnerReq).lookup "owner" = some (.str "evil") ∧
    (issueUpdateParams updateOwnerReq).lookup "repo" = some (.str "hello") := by
  have h := issue_update_body_overrides_path okConfig updateOwnerReq
    failUpstream "t0" rfl
  exact ⟨h.1, h.2.1, h.2.2.1⟩

end Backend
